import Mathlib

/-!
Shallow embedding of the geospatial overlay pipeline in
`src/dashboard/components/map/RouteMap.tsx` (a React/Leaflet component),
together with proofs about the claims of the specification.

Modelling conventions:
* JavaScript numbers are modelled by `JSVal`: `NaN`, the two infinities, and
  finite values as exact rationals.  A missing (`undefined`) numeric field is
  modelled as `nan`: in every operation the source performs on such a field
  (truthiness test, `isNaN`, `<`/`>=` comparison) `undefined` and `NaN`
  behave identically, because JS coerces `undefined` to `NaN` first.
* Optional object fields (`stop.stop?`, `route.stops?`, …) are `Option`s.
* Latitude/longitude strings are represented by their `parseFloat` result
  (`Option JSVal`, `none` for a missing/empty string, in which case the
  source's `|| "0"` fallback applies and `"0"` parses to `0`).
* JSX output is modelled as the data the component hands to the map surface:
  lists of path-overlay and stop-marker descriptors (React drops `null`
  children, hence `Option` entries followed by `reduceOption`), and the
  `fitBounds` side effect as an optional `FitCommand`.
* `L.latLngBounds` / `LatLngBounds.extend` are Leaflet library calls; their
  semantics (seed from the first point, then `Math.min`/`Math.max` per axis)
  is embedded in `latLngBounds` / `extendBounds`.
* React's `useEffect` dependency comparison is by `Object.is`, i.e. object
  identity for arrays; `ArrRef` pairs an identity token with array contents.
-/

/-- A JavaScript number: `NaN`, `-Infinity`, a finite value, or `Infinity`. -/
inductive JSVal where
  | nan
  | negInf
  | fin (q : ℚ)
  | posInf
deriving DecidableEq, Repr

namespace JSVal

/-- JS truthiness of a number: `0`, `-0` and `NaN` are falsy. -/
def truthy : JSVal → Bool
  | .nan => false
  | .fin q => decide (q ≠ 0)
  | _ => true

/-- The `isNaN` predicate of JS. -/
def isNaNb : JSVal → Bool
  | .nan => true
  | _ => false

/-- `Number.isFinite`: true exactly on finite values. -/
def isFinite : JSVal → Bool
  | .fin _ => true
  | _ => false

/-- Order embedding of the non-`NaN` values into `WithBot (WithTop ℚ)`
(`NaN` is mapped to `⊥` but every use is guarded by an `isNaNb` test,
mirroring JS comparisons, which are all false on `NaN`). -/
def toW : JSVal → WithBot (WithTop ℚ)
  | .nan => ⊥
  | .negInf => ⊥
  | .fin q => ((q : WithTop ℚ) : WithBot (WithTop ℚ))
  | .posInf => ((⊤ : WithTop ℚ) : WithBot (WithTop ℚ))

end JSVal

/-- JS `a < b`: false when either side is `NaN`, numeric comparison otherwise. -/
def jsLt (a b : JSVal) : Bool :=
  !a.isNaNb && !b.isNaNb && decide (a.toW < b.toW)

/-- JS `a >= b`: false when either side is `NaN`, numeric comparison otherwise. -/
def jsGe (a b : JSVal) : Bool :=
  !a.isNaNb && !b.isNaNb && decide (b.toW ≤ a.toW)

/-- JS `a <= b` on non-`NaN` values (used only to state bracketing results). -/
def jsLe (a b : JSVal) : Bool :=
  !a.isNaNb && !b.isNaNb && decide (a.toW ≤ b.toW)

/-- JS `Math.min`: `NaN` absorbs, otherwise the smaller value. -/
def jsMin (a b : JSVal) : JSVal :=
  if a.isNaNb || b.isNaNb then .nan
  else if a.toW ≤ b.toW then a else b

/-- JS `Math.max`: `NaN` absorbs, otherwise the larger value. -/
def jsMax (a b : JSVal) : JSVal :=
  if a.isNaNb || b.isNaNb then .nan
  else if b.toW ≤ a.toW then a else b

/-- `getColorBySpeed` (RouteMap.tsx lines 262–266):
`speed >= 37` → green, `speed >= 36.5` → yellow, otherwise red. -/
def getColorBySpeed (speed : JSVal) : String :=
  if jsGe speed (.fin 37) then "#22c55e"
  else if jsGe speed (.fin (73/2)) then "#eab308"
  else "#ef4444"

/-- The spec's performance tiers. -/
inductive Tier where
  | Fast
  | Medium
  | Slow
deriving DecidableEq, Repr

/-- The spec's classifier, written from the spec's words (§4.3): speed ≥ 37 →
Fast; 36.5 ≤ speed < 37 → Medium; speed < 36.5 → Slow. -/
def specClassify (q : ℚ) : Tier :=
  if 37 ≤ q then .Fast else if 73/2 ≤ q then .Medium else .Slow

/-- The fixed display color of each tier. -/
def tierColor : Tier → String
  | .Fast => "#22c55e"
  | .Medium => "#eab308"
  | .Slow => "#ef4444"

/-- A stop's location record: name, latitude/longitude (represented by the
`parseFloat` result of the stored text, `none` when the field is missing or
empty so that the source's `|| "0"` fallback applies), and the hub flag
(`false` when the field is absent, matching JS truthiness of `undefined`). -/
structure StopLocation where
  name : String
  latitude : Option JSVal
  longitude : Option JSVal
  isTransportHub : Bool
deriving DecidableEq, Repr

/-- A stop within a route: identity, optional location, cumulative distance. -/
structure RouteStop where
  id : String
  stop : Option StopLocation
  totalDistance : JSVal
deriving DecidableEq, Repr

/-- One point of a path variant's geometry. -/
structure FlowCoordinate where
  lat : JSVal
  lon : JSVal
deriving DecidableEq, Repr

/-- One geometric path alternative of a route; the coordinate list and its
elements may be absent (`variant.flowCoordinates?`, null entries). -/
structure PathVariant where
  flowCoordinates : Option (List (Option FlowCoordinate))
deriving DecidableEq, Repr

/-- A processed route record (`ProcessedRoute` of `@/lib/types`), with the
fields RouteMap.tsx reads. -/
structure ProcessedRoute where
  id : String
  number : String
  firstPoint : String
  lastPoint : String
  avgSpeed : JSVal
  routLength : JSVal
  stopCount : Nat
  carrier : String
  stops : Option (List RouteStop)
  routes : Option (List PathVariant)
deriving DecidableEq, Repr

/-- `parseFloat(stop.stop?.latitude || "0")` (lines 34–35, 151–152): a missing
location or a missing/empty coordinate string falls back to `"0"`, which
parses to `0`; otherwise the string's parse result is used. -/
def parsedStopCoord (s : Option StopLocation) (f : StopLocation → Option JSVal) : JSVal :=
  match s with
  | none => .fin 0
  | some loc => (f loc).getD (.fin 0)

/-- The stop-coordinate acceptance test of the Bounds Accumulator (line 36):
`lat && lon && !isNaN(lat) && !isNaN(lon) && lat !== 0 && lon !== 0`. -/
def stopCoordCheck (lat lon : JSVal) : Bool :=
  lat.truthy && lon.truthy && !lat.isNaNb && !lon.isNaNb &&
    decide (lat ≠ .fin 0) && decide (lon ≠ .fin 0)

/-- The stop-marker rejection test (line 154):
`!lat || !lon || isNaN(lat) || isNaN(lon) || lat === 0 || lon === 0`. -/
def stopMarkerReject (lat lon : JSVal) : Bool :=
  !lat.truthy || !lon.truthy || lat.isNaNb || lon.isNaNb ||
    decide (lat = .fin 0) || decide (lon = .fin 0)

/-- The flow-coordinate acceptance test (lines 44, 85, 112):
`coord && coord.lat && coord.lon && !isNaN(coord.lat) && !isNaN(coord.lon)`. -/
def flowCoordCheck : Option FlowCoordinate → Bool
  | none => false
  | some coord =>
      coord.lat.truthy && coord.lon.truthy && !coord.lat.isNaNb && !coord.lon.isNaNb

/-- The common validity predicate the three call sites implement: neither
component is `NaN` (in particular, no parse failure) and neither is exactly
zero.  Finiteness is NOT required: the checks accept infinite values. -/
def validPair (lat lon : JSVal) : Bool :=
  !lat.isNaNb && !lon.isNaNb && decide (lat ≠ .fin 0) && decide (lon ≠ .fin 0)

/-- The filter-and-project step applied to one optional flow coordinate
(lines 44–46, 112–113): keep `[coord.lat, coord.lon]` when the coordinate
passes the flow-coordinate check, drop it otherwise. -/
def coordFilter : Option FlowCoordinate → Option (JSVal × JSVal)
  | none => none
  | some coord =>
      if flowCoordCheck (some coord) then some (coord.lat, coord.lon) else none

/-- Valid stop coordinates one route contributes to the bounds (lines 32–39). -/
def stopBoundsPoints (r : ProcessedRoute) : List (JSVal × JSVal) :=
  (r.stops.getD []).filterMap (fun stop =>
    let lat := parsedStopCoord stop.stop StopLocation.latitude
    let lon := parsedStopCoord stop.stop StopLocation.longitude
    if stopCoordCheck lat lon then some (lat, lon) else none)

/-- Valid flow coordinates one route contributes to the bounds (lines 41–48). -/
def flowBoundsPoints (r : ProcessedRoute) : List (JSVal × JSVal) :=
  (r.routes.getD []).flatMap (fun variant =>
    (variant.flowCoordinates.getD []).filterMap coordFilter)

/-- The merged point set of the Bounds Accumulator (lines 31–49): per route,
valid stop locations first, then valid flow coordinates of every variant. -/
def collectBounds (routes : List ProcessedRoute) : List (JSVal × JSVal) :=
  routes.flatMap (fun r => stopBoundsPoints r ++ flowBoundsPoints r)

/-- A Leaflet `LatLngBounds` value: the two corner latitudes and longitudes. -/
structure Bounds where
  minLat : JSVal
  maxLat : JSVal
  minLon : JSVal
  maxLon : JSVal
deriving DecidableEq, Repr

/-- Leaflet `LatLngBounds.extend` with one point: `Math.min`/`Math.max`
against each corner coordinate. -/
def extendBounds (b : Bounds) (p : JSVal × JSVal) : Bounds :=
  { minLat := jsMin p.1 b.minLat
    maxLat := jsMax p.1 b.maxLat
    minLon := jsMin p.2 b.minLon
    maxLon := jsMax p.2 b.maxLon }

/-- Leaflet `L.latLngBounds(points)`: seeded from the first point, extended
with the remaining ones; no bounds for an empty list. -/
def latLngBounds : List (JSVal × JSVal) → Option Bounds
  | [] => none
  | p :: ps => some (ps.foldl extendBounds ⟨p.1, p.1, p.2, p.2⟩)

/-- All four corner coordinates of a bounds value are non-`NaN`. -/
def boundsNonNaN (b : Bounds) : Prop :=
  b.minLat.isNaNb = false ∧ b.maxLat.isNaNb = false ∧
  b.minLon.isNaNb = false ∧ b.maxLon.isNaNb = false

/-- A point with non-`NaN` components. -/
def pointNonNaN (p : JSVal × JSVal) : Prop :=
  p.1.isNaNb = false ∧ p.2.isNaNb = false

/-- The bounds bracket the point on both axes (JS `<=` on non-`NaN` values). -/
def coversPoint (b : Bounds) (p : JSVal × JSVal) : Prop :=
  jsLe b.minLat p.1 = true ∧ jsLe p.1 b.maxLat = true ∧
  jsLe b.minLon p.2 = true ∧ jsLe p.2 b.maxLon = true

/-- The `fitBounds` side effect: target region plus the fixed pixel padding. -/
structure FitCommand where
  bounds : Bounds
  padding : Nat × Nat
deriving DecidableEq, Repr

/-- The `useEffect` body of `MapUpdater` (lines 28–55): when the routes array
is nonempty, accumulate valid points, and when at least one point was found,
fit the view to their bounds with padding `[50, 50]`. -/
def mapUpdaterCommand (routes : List ProcessedRoute) : Option FitCommand :=
  if 0 < routes.length then
    let pts := collectBounds routes
    if 0 < pts.length then (latLngBounds pts).map (fun b => ⟨b, (50, 50)⟩)
    else none
  else none

/-- A JS array reference: object identity plus contents.  React compares
`useEffect` dependencies with `Object.is`, i.e. by reference for arrays. -/
structure ArrRef where
  ref : Nat
  content : List ProcessedRoute
deriving DecidableEq, Repr

/-- Whether the effect re-runs at a render: on the first render, or when the
`routes` dependency is a different object than at the previous render
(the `map` dependency is the stable Leaflet instance and never changes). -/
def effectRuns : Option ArrRef → ArrRef → Bool
  | none, _ => true
  | some prev, cur => decide (prev.ref ≠ cur.ref)

/-- The fit commands the `MapUpdater` effect issues at one render, given the
previous render's dependency value. -/
def fitStep (prev : Option ArrRef) (cur : ArrRef) : List FitCommand :=
  if effectRuns prev cur then (mapUpdaterCommand cur.content).toList else []

/-- The fit commands issued over a sequence of renders. -/
def fitCommands : Option ArrRef → List ArrRef → List FitCommand
  | _, [] => []
  | prev, r :: rs => fitStep prev r ++ fitCommands (some r) rs

/-- The filter predicate of `displayRoutes` (lines 79–88): the route has some
path variant with a non-null, nonempty coordinate list containing at least
one coordinate that passes the flow-coordinate check. -/
def hasValidFlow (route : ProcessedRoute) : Bool :=
  (route.routes.getD []).any (fun variant =>
    match variant.flowCoordinates with
    | none => false
    | some coords => decide (0 < coords.length) && coords.any flowCoordCheck)

/-- `displayRoutes` (lines 76–89): the selected route alone, or the routes
with valid geometry truncated to the first 30. -/
def displayRoutes (routes : List ProcessedRoute) (selectedRoute : Option ProcessedRoute) :
    List ProcessedRoute :=
  match selectedRoute with
  | some r => [r]
  | none => (routes.filter hasValidFlow).take 30

/-- The popup payload of a path overlay (lines 133–144). -/
structure PathPopup where
  number : String
  firstPoint : String
  lastPoint : String
  avgSpeed : JSVal
  routLength : JSVal
  stopCount : Nat
  carrier : String
deriving DecidableEq, Repr

/-- A rendered polyline descriptor (lines 120–146). -/
structure PathOverlay where
  key : String
  positions : List (JSVal × JSVal)
  color : String
  weight : Nat
  opacity : ℚ
  popup : PathPopup
deriving DecidableEq, Repr

/-- The valid coordinates of one variant (lines 111–113). -/
def variantCoordinates (variant : PathVariant) : List (JSVal × JSVal) :=
  (variant.flowCoordinates.getD []).filterMap coordFilter

/-- One iteration of the `routeLines` map (lines 108–147): `null` for a
missing or empty coordinate list, `null` again when no coordinate survives
the filter, otherwise a polyline descriptor. -/
def overlayOfVariant (selectedSome : Bool) (route : ProcessedRoute) (idx : Nat)
    (variant : PathVariant) : Option PathOverlay :=
  match variant.flowCoordinates with
  | none => none
  | some coords =>
      if coords.length = 0 then none
      else
        let coordinates := coords.filterMap coordFilter
        if coordinates.length = 0 then none
        else some
          { key := route.id ++ "-" ++ toString idx
            positions := coordinates
            color := if selectedSome then "#3b82f6" else getColorBySpeed route.avgSpeed
            weight := if selectedSome then 5 else 3
            opacity := if selectedSome then Rat.divInt 9 10 else Rat.divInt 6 10
            popup := ⟨route.number, route.firstPoint, route.lastPoint,
                      route.avgSpeed, route.routLength, route.stopCount, route.carrier⟩ }

/-- `routeLines` (line 108): one optional polyline per path variant. -/
def routeLines (selectedSome : Bool) (route : ProcessedRoute) : List (Option PathOverlay) :=
  (route.routes.getD []).mapIdx (fun idx variant => overlayOfVariant selectedSome route idx variant)

/-- The polylines actually rendered for one route (React drops `null`s). -/
def renderedLines (selectedSome : Bool) (route : ProcessedRoute) : List PathOverlay :=
  (routeLines selectedSome route).reduceOption

/-- The popup payload of a stop marker (lines 196–220): location name,
cumulative distance, and the role badges shown when the flags hold. -/
structure StopPopup where
  name : Option String
  totalDistance : JSVal
  isFirst : Bool
  isLast : Bool
  isHub : Bool
deriving DecidableEq, Repr

/-- A rendered stop-marker descriptor (lines 160–195): visual size, color and
pulse-animation flag of the icon, plus the popup payload. -/
structure StopMarker where
  key : String
  position : JSVal × JSVal
  markerSize : Nat
  bgColor : String
  pulse : Bool
  popup : StopPopup
deriving DecidableEq, Repr

/-- One iteration of the stop-marker map (lines 150–223): `null` when the
parsed location fails validation, otherwise a marker whose size, color and
animation follow the hub/first/last flags. -/
def markerOfStop (route : ProcessedRoute) (stopIdx : Nat) (stop : RouteStop) :
    Option StopMarker :=
  let lat := parsedStopCoord stop.stop StopLocation.latitude
  let lon := parsedStopCoord stop.stop StopLocation.longitude
  if stopMarkerReject lat lon then none
  else
    let isHub := (stop.stop.map StopLocation.isTransportHub).getD false
    let isFirst := decide (stopIdx = 0)
    let isLast := decide ((stopIdx : ℤ) = ((route.stops.getD []).length : ℤ) - 1)
    some
      { key := stop.id
        position := (lat, lon)
        markerSize := if isHub then 24 else if isFirst || isLast then 20 else 16
        bgColor := if isHub then "#ef4444" else if isFirst then "#10b981"
                   else if isLast then "#f59e0b" else "#3b82f6"
        pulse := isHub || isFirst || isLast
        popup := ⟨stop.stop.map StopLocation.name, stop.totalDistance,
                  isFirst, isLast, isHub⟩ }

/-- `stopMarkers` (lines 150–223): `selectedRoute && route.stops?.map(...)` —
nothing is rendered unless a route is selected and the stop list exists. -/
def stopMarkers (selectedRoute : Option ProcessedRoute) (route : ProcessedRoute) :
    List (Option StopMarker) :=
  match selectedRoute, route.stops with
  | none, _ => []
  | some _, none => []
  | some _, some stops => stops.mapIdx (fun i s => markerOfStop route i s)

/-- The stop markers actually rendered for one route. -/
def renderedMarkers (selectedRoute : Option ProcessedRoute) (route : ProcessedRoute) :
    List StopMarker :=
  (stopMarkers selectedRoute route).reduceOption

/-- The Overlay Builder (lines 106–231): for each route of the active set,
its rendered polylines and stop markers, in the active set's order. -/
def buildOverlays (routes : List ProcessedRoute) (sel : Option ProcessedRoute) :
    List (List PathOverlay × List StopMarker) :=
  (displayRoutes routes sel).map (fun r =>
    (renderedLines sel.isSome r, renderedMarkers sel r))

/-- The sample geometry of spec §8: [(40.40, 49.86), (0, 0), (40.41, 49.87)]. -/
def samplePoints : List (Option FlowCoordinate) :=
  [some ⟨.fin (Rat.divInt 4040 100), .fin (Rat.divInt 4986 100)⟩,
   some ⟨.fin 0, .fin 0⟩,
   some ⟨.fin (Rat.divInt 4041 100), .fin (Rat.divInt 4987 100)⟩]

/-- A concrete route with one path variant over `samplePoints` and one stop. -/
def sampleRoute : ProcessedRoute :=
  { id := "R1"
    number := "7"
    firstPoint := "Koroglu"
    lastPoint := "28 May"
    avgSpeed := .fin 40
    routLength := .fin 12
    stopCount := 1
    carrier := "BakuBus"
    stops := some [⟨"s1", some ⟨"Koroglu", some (.fin (Rat.divInt 4040 100)),
                    some (.fin (Rat.divInt 4986 100)), false⟩, .fin 0⟩]
    routes := some [⟨some samplePoints⟩] }

/-- A three-stop route A, B, C where only B carries the hub flag. -/
def routeABC : ProcessedRoute :=
  { id := "R2"
    number := "18"
    firstPoint := "A"
    lastPoint := "C"
    avgSpeed := .fin 38
    routLength := .fin 9
    stopCount := 3
    carrier := "BakuBus"
    stops := some
      [⟨"sA", some ⟨"A", some (.fin 40), some (.fin 49), false⟩, .fin 0⟩,
       ⟨"sB", some ⟨"B", some (.fin 41), some (.fin 50), true⟩, .fin 3⟩,
       ⟨"sC", some ⟨"C", some (.fin 42), some (.fin 51), false⟩, .fin 6⟩]
    routes := some [⟨some [some ⟨.fin 40, .fin 49⟩]⟩] }

/-- A route whose single path variant contains no valid flow coordinate, so
it does not qualify for the unselected active set. -/
def emptyGeomRoute : ProcessedRoute :=
  { id := "R3"
    number := "99"
    firstPoint := "X"
    lastPoint := "Y"
    avgSpeed := .fin 20
    routLength := .fin 1
    stopCount := 0
    carrier := "BakuBus"
    stops := none
    routes := some [⟨some [some ⟨.fin 0, .fin 0⟩]⟩] }

/-- The stop B of `routeABC`. -/
def stopB : RouteStop :=
  ⟨"sB", some ⟨"B", some (.fin 41), some (.fin 50), true⟩, .fin 3⟩

/-- The marker the source builds for stop B of `routeABC`. -/
def markerB : StopMarker :=
  { key := "sB"
    position := (.fin 41, .fin 50)
    markerSize := 24
    bgColor := "#ef4444"
    pulse := true
    popup := ⟨some "B", .fin 3, false, false, true⟩ }

/-- The polyline descriptor the source builds for `sampleRoute`'s variant when
no route is selected. -/
def sampleOverlay : PathOverlay :=
  { key := "R1-0"
    positions := [(.fin (Rat.divInt 4040 100), .fin (Rat.divInt 4986 100)),
                  (.fin (Rat.divInt 4041 100), .fin (Rat.divInt 4987 100))]
    color := "#22c55e"
    weight := 3
    opacity := Rat.divInt 6 10
    popup := ⟨"7", "Koroglu", "28 May", .fin 40, .fin 12, 1, "BakuBus"⟩ }

theorem jsGe_fin_fin (a b : ℚ) : jsGe (.fin a) (.fin b) = decide (b ≤ a) := by
  simp [jsGe, JSVal.isNaNb, JSVal.toW]

/-- C6: for every finite average speed, the color function realizes the spec's
classifier: Fast iff speed ≥ 37, Medium iff 36.5 ≤ speed < 37, Slow iff
speed < 36.5 (including zero and negative speeds). -/
theorem getColorBySpeed_realizes_specClassify (q : ℚ) :
    getColorBySpeed (.fin q) = tierColor (specClassify q) ∧
    (specClassify q = .Fast ↔ 37 ≤ q) ∧
    (specClassify q = .Medium ↔ 73/2 ≤ q ∧ q < 37) ∧
    (specClassify q = .Slow ↔ q < 73/2) := by
  unfold getColorBySpeed specClassify tierColor
  rcases le_or_lt 37 q with h1 | h1
  · have h2 : (73:ℚ)/2 ≤ q := le_trans (by norm_num) h1
    simp [jsGe_fin_fin, h1, h2, not_lt.mpr h1, not_lt.mpr h2]
  · rcases le_or_lt (73/2) q with h2 | h2
    · simp [jsGe_fin_fin, not_le.mpr h1, h1, h2, not_lt.mpr h2]
    · simp [jsGe_fin_fin, not_le.mpr h1, not_le.mpr h2, h2]

/-- Witness for C6: speed 37.0 is Fast (green), 36.5 is Medium (yellow),
36.4999 is Slow (red), 0 is Slow (red), each obtained from the theorem. -/
theorem getColorBySpeed_examples :
    getColorBySpeed (.fin 37) = tierColor .Fast ∧
    getColorBySpeed (.fin (73/2)) = tierColor .Medium ∧
    getColorBySpeed (.fin (364999/10000)) = tierColor .Slow ∧
    getColorBySpeed (.fin 0) = tierColor .Slow := by
  refine ⟨?_, ?_, ?_, ?_⟩
  · have h := getColorBySpeed_realizes_specClassify 37
    rw [h.1, h.2.1.mpr (by norm_num)]
  · have h := getColorBySpeed_realizes_specClassify (73/2)
    rw [h.1, h.2.2.1.mpr (by norm_num)]
  · have h := getColorBySpeed_realizes_specClassify (364999/10000)
    rw [h.1, h.2.2.2.mpr (by norm_num)]
  · have h := getColorBySpeed_realizes_specClassify 0
    rw [h.1, h.2.2.2.mpr (by norm_num)]

/-- C10: for a `NaN` average speed both threshold comparisons are false, so the
function is total and returns the Slow tier color. -/
theorem getColorBySpeed_nan :
    getColorBySpeed .nan = tierColor .Slow ∧
    jsGe .nan (.fin 37) = false ∧ jsGe .nan (.fin (73/2)) = false := by
  refine ⟨rfl, rfl, rfl⟩

theorem truthy_eq (v : JSVal) :
    v.truthy = (!v.isNaNb && !decide (v = .fin 0)) := by
  cases v <;> simp [JSVal.truthy, JSVal.isNaNb]

/-- C1 (amended): the three coordinate-validation sites (bounds accumulation,
polyline filtering, stop-marker construction) all accept a pair exactly when
neither component is `NaN` (so no parse failure) and neither is exactly zero;
finiteness is not checked, so infinite components are accepted. -/
theorem coordinate_validation_unified (lat lon : JSVal) :
    stopCoordCheck lat lon = validPair lat lon ∧
    stopMarkerReject lat lon = !validPair lat lon ∧
    flowCoordCheck (some ⟨lat, lon⟩) = validPair lat lon ∧
    (lat.isNaNb = true ∨ lon.isNaNb = true ∨ lat = .fin 0 ∨ lon = .fin 0 →
      validPair lat lon = false) := by
  refine ⟨?_, ?_, ?_, ?_⟩
  · simp only [stopCoordCheck, validPair, truthy_eq, decide_not]
    generalize lat.isNaNb = a
    generalize lon.isNaNb = b
    generalize decide (lat = JSVal.fin 0) = c
    generalize decide (lon = JSVal.fin 0) = d
    revert a b c d
    decide
  · simp only [stopMarkerReject, validPair, truthy_eq, decide_not]
    generalize lat.isNaNb = a
    generalize lon.isNaNb = b
    generalize decide (lat = JSVal.fin 0) = c
    generalize decide (lon = JSVal.fin 0) = d
    revert a b c d
    decide
  · simp only [flowCoordCheck, validPair, truthy_eq, decide_not]
    generalize lat.isNaNb = a
    generalize lon.isNaNb = b
    generalize decide (lat = JSVal.fin 0) = c
    generalize decide (lon = JSVal.fin 0) = d
    revert a b c d
    decide
  · rintro (h | h | h | h) <;> simp [validPair, h]

/-- Witness for C1's amended theorem at (40.40, 49.86). -/
theorem coordinate_validation_unified_witness :
    stopCoordCheck (.fin (Rat.divInt 404 10)) (.fin (Rat.divInt 4986 100)) =
      validPair (.fin (Rat.divInt 404 10)) (.fin (Rat.divInt 4986 100)) ∧
    validPair (.fin (Rat.divInt 404 10)) (.fin (Rat.divInt 4986 100)) = true :=
  ⟨(coordinate_validation_unified (.fin (Rat.divInt 404 10))
      (.fin (Rat.divInt 4986 100))).1, by decide⟩

/-- Counterexample to C1 as stated: the pair (Infinity, 1) — obtainable from
the coordinate text `"Infinity"`, which `parseFloat` parses to `Infinity` —
is accepted by every validation site even though `Infinity` is not finite,
refuting "accepted iff both components parse to finite numbers". -/
theorem coordinate_validation_accepts_infinity :
    stopCoordCheck .posInf (.fin 1) = true ∧
    flowCoordCheck (some ⟨.posInf, .fin 1⟩) = true ∧
    stopMarkerReject .posInf (.fin 1) = false ∧
    JSVal.isFinite .posInf = false := by
  refine ⟨by decide, by decide, by decide, rfl⟩

/-- C2 (amended): without a selection the rendered set is a subset of the
supplied routes of size at most 30; with a selection it is exactly that one
route (size 1), and it is a subset of the supplied routes whenever the
selected route is drawn from them. -/
theorem displayRoutes_subset_and_cap (routes : List ProcessedRoute)
    (sel : Option ProcessedRoute) :
    (sel = none → (∀ x ∈ displayRoutes routes sel, x ∈ routes) ∧
      (displayRoutes routes sel).length ≤ 30) ∧
    (∀ r, sel = some r → displayRoutes routes sel = [r] ∧
      (displayRoutes routes sel).length = 1 ∧
      (r ∈ routes → ∀ x ∈ displayRoutes routes sel, x ∈ routes)) := by
  constructor
  · rintro rfl
    constructor
    · intro x hx
      exact (((routes.filter hasValidFlow).take_sublist 30).trans
        (routes.filter_sublist)).subset hx
    · rw [displayRoutes, List.length_take]
      exact min_le_left _ _
  · rintro r rfl
    refine ⟨rfl, rfl, ?_⟩
    intro hr x hx
    rw [displayRoutes, List.mem_singleton] at hx
    exact hx ▸ hr

/-- Witness for C2's amended theorem: one selected route and a two-route
unselected list. -/
theorem displayRoutes_subset_and_cap_witness :
    displayRoutes [sampleRoute] (some sampleRoute) = [sampleRoute] ∧
    (displayRoutes [sampleRoute] (some sampleRoute)).length = 1 ∧
    (displayRoutes [sampleRoute, routeABC] none).length ≤ 30 := by
  have h := displayRoutes_subset_and_cap [sampleRoute] (some sampleRoute)
  have h2 := displayRoutes_subset_and_cap [sampleRoute, routeABC] none
  exact ⟨(h.2 sampleRoute rfl).1, (h.2 sampleRoute rfl).2.1, (h2.1 rfl).2⟩

/-- Counterexample to C2 as stated: selecting a route that is not in the
supplied list (here the empty list) still renders that route alone, so the
rendered set is not always a subset of the supplied route list. -/
theorem displayRoutes_renders_foreign_selection :
    displayRoutes [] (some sampleRoute) = [sampleRoute] ∧
    sampleRoute ∉ ([] : List ProcessedRoute) :=
  ⟨rfl, by simp⟩

/-- C4: with a selection the active set is exactly that single route, and stop
markers exist only in selected mode; without one it IS — for every supplied
list, mixed validity included — the ordered subsequence of routes having a
variant with a valid flow coordinate, truncated to the first 30 in supplied
order (hence a qualifying sublist of the supplied routes, and exactly the
first 30 when every supplied route qualifies). -/
theorem route_render_selector_spec (routes : List ProcessedRoute)
    (sel : Option ProcessedRoute) :
    (∀ r, sel = some r → displayRoutes routes sel = [r]) ∧
    (sel = none →
      displayRoutes routes sel = (routes.filter hasValidFlow).take 30 ∧
      (displayRoutes routes sel).Sublist routes ∧
      (∀ r ∈ displayRoutes routes sel, hasValidFlow r = true) ∧
      ((∀ r ∈ routes, hasValidFlow r = true) →
        displayRoutes routes sel = routes.take 30)) ∧
    (∀ r, stopMarkers none r = []) := by
  refine ⟨?_, ?_, fun _ => rfl⟩
  · rintro r rfl
    rfl
  · rintro rfl
    refine ⟨rfl, ((routes.filter hasValidFlow).take_sublist 30).trans
      routes.filter_sublist, ?_, ?_⟩
    · intro r hr
      have := ((routes.filter hasValidFlow).take_sublist 30).subset hr
      exact (List.mem_filter.mp this).2
    · intro hall
      rw [displayRoutes, List.filter_eq_self.mpr hall]

/-- Witness for C4: a mixed-validity list filters down to its qualifying
routes in order; 50 routes with valid geometry and no selection yield exactly
the first 30 in supplied order; a selection yields exactly that route;
unselected mode renders no stop markers. -/
theorem route_render_selector_spec_witness :
    displayRoutes [emptyGeomRoute, sampleRoute, routeABC] none =
      ([emptyGeomRoute, sampleRoute, routeABC].filter hasValidFlow).take 30 ∧
    displayRoutes [emptyGeomRoute, sampleRoute, routeABC] none =
      [sampleRoute, routeABC] ∧
    displayRoutes (List.replicate 50 sampleRoute) none =
      (List.replicate 50 sampleRoute).take 30 ∧
    (displayRoutes (List.replicate 50 sampleRoute) none).length = 30 ∧
    displayRoutes (List.replicate 50 sampleRoute) (some routeABC) = [routeABC] ∧
    stopMarkers none sampleRoute = [] := by
  have hv : ∀ r ∈ List.replicate 50 sampleRoute, hasValidFlow r = true := by decide
  have hmix := route_render_selector_spec [emptyGeomRoute, sampleRoute, routeABC] none
  have h := route_render_selector_spec (List.replicate 50 sampleRoute) none
  refine ⟨(hmix.2.1 rfl).1, ?_, (h.2.1 rfl).2.2.2 hv, ?_, ?_, h.2.2 sampleRoute⟩
  · rw [(hmix.2.1 rfl).1]
    decide
  · rw [(h.2.1 rfl).2.2.2 hv]
    simp
  · exact (route_render_selector_spec (List.replicate 50 sampleRoute)
      (some routeABC)).1 routeABC rfl

theorem jsLe_iff (a b : JSVal) :
    jsLe a b = true ↔ a.isNaNb = false ∧ b.isNaNb = false ∧ a.toW ≤ b.toW := by
  simp [jsLe, Bool.and_eq_true, Bool.not_eq_true', and_assoc]

theorem jsLe_refl {a : JSVal} (ha : a.isNaNb = false) : jsLe a a = true :=
  (jsLe_iff a a).mpr ⟨ha, ha, le_refl _⟩

theorem jsMin_nonNaN {a b : JSVal} (ha : a.isNaNb = false) (hb : b.isNaNb = false) :
    (jsMin a b).isNaNb = false := by
  unfold jsMin
  rw [ha, hb]
  simp only [Bool.or_self, Bool.false_eq_true, if_false]
  split <;> assumption

theorem jsMax_nonNaN {a b : JSVal} (ha : a.isNaNb = false) (hb : b.isNaNb = false) :
    (jsMax a b).isNaNb = false := by
  unfold jsMax
  rw [ha, hb]
  simp only [Bool.or_self, Bool.false_eq_true, if_false]
  split <;> assumption

theorem jsMin_toW {a b : JSVal} (ha : a.isNaNb = false) (hb : b.isNaNb = false) :
    (jsMin a b).toW = min a.toW b.toW := by
  unfold jsMin
  rw [ha, hb]
  simp only [Bool.or_self, Bool.false_eq_true, if_false]
  split
  · next h => exact (min_eq_left h).symm
  · next h => exact (min_eq_right (le_of_not_le h)).symm

theorem jsMax_toW {a b : JSVal} (ha : a.isNaNb = false) (hb : b.isNaNb = false) :
    (jsMax a b).toW = max a.toW b.toW := by
  unfold jsMax
  rw [ha, hb]
  simp only [Bool.or_self, Bool.false_eq_true, if_false]
  split
  · next h => exact (max_eq_left h).symm
  · next h => exact (max_eq_right (le_of_not_le h)).symm

theorem extendBounds_nonNaN {b : Bounds} {p : JSVal × JSVal}
    (hb : boundsNonNaN b) (hp : pointNonNaN p) : boundsNonNaN (extendBounds b p) :=
  ⟨jsMin_nonNaN hp.1 hb.1, jsMax_nonNaN hp.1 hb.2.1,
   jsMin_nonNaN hp.2 hb.2.2.1, jsMax_nonNaN hp.2 hb.2.2.2⟩

theorem coversPoint_extend_self {b : Bounds} {p : JSVal × JSVal}
    (hb : boundsNonNaN b) (hp : pointNonNaN p) : coversPoint (extendBounds b p) p := by
  refine ⟨?_, ?_, ?_, ?_⟩
  · exact (jsLe_iff _ _).mpr ⟨jsMin_nonNaN hp.1 hb.1, hp.1,
      (jsMin_toW hp.1 hb.1).le.trans (min_le_left _ _)⟩
  · exact (jsLe_iff _ _).mpr ⟨hp.1, jsMax_nonNaN hp.1 hb.2.1,
      (le_max_left _ _).trans (jsMax_toW hp.1 hb.2.1).ge⟩
  · exact (jsLe_iff _ _).mpr ⟨jsMin_nonNaN hp.2 hb.2.2.1, hp.2,
      (jsMin_toW hp.2 hb.2.2.1).le.trans (min_le_left _ _)⟩
  · exact (jsLe_iff _ _).mpr ⟨hp.2, jsMax_nonNaN hp.2 hb.2.2.2,
      (le_max_left _ _).trans (jsMax_toW hp.2 hb.2.2.2).ge⟩

theorem coversPoint_extend_mono {b : Bounds} {p q : JSVal × JSVal}
    (hb : boundsNonNaN b) (hp : pointNonNaN p) (hq : coversPoint b q) :
    coversPoint (extendBounds b p) q := by
  obtain ⟨h1, h2, h3, h4⟩ := hq
  rw [jsLe_iff] at h1 h2 h3 h4
  refine ⟨?_, ?_, ?_, ?_⟩
  · exact (jsLe_iff _ _).mpr ⟨jsMin_nonNaN hp.1 hb.1, h1.2.1,
      ((jsMin_toW hp.1 hb.1).le.trans (min_le_right _ _)).trans h1.2.2⟩
  · exact (jsLe_iff _ _).mpr ⟨h2.1, jsMax_nonNaN hp.1 hb.2.1,
      (h2.2.2.trans (le_max_right _ _)).trans (jsMax_toW hp.1 hb.2.1).ge⟩
  · exact (jsLe_iff _ _).mpr ⟨jsMin_nonNaN hp.2 hb.2.2.1, h3.2.1,
      ((jsMin_toW hp.2 hb.2.2.1).le.trans (min_le_right _ _)).trans h3.2.2⟩
  · exact (jsLe_iff _ _).mpr ⟨h4.1, jsMax_nonNaN hp.2 hb.2.2.2,
      (h4.2.2.trans (le_max_right _ _)).trans (jsMax_toW hp.2 hb.2.2.2).ge⟩

theorem foldl_extendBounds_spec (ps : List (JSVal × JSVal)) (b : Bounds)
    (hb : boundsNonNaN b) (hps : ∀ p ∈ ps, pointNonNaN p) :
    boundsNonNaN (ps.foldl extendBounds b) ∧
    (∀ q, coversPoint b q → coversPoint (ps.foldl extendBounds b) q) ∧
    (∀ p ∈ ps, coversPoint (ps.foldl extendBounds b) p) := by
  induction ps generalizing b with
  | nil => exact ⟨hb, fun q hq => hq, by simp⟩
  | cons p ps ih =>
    have hp : pointNonNaN p := hps p (List.mem_cons_self _ _)
    have hps' : ∀ x ∈ ps, pointNonNaN x := fun x hx => hps x (List.mem_cons_of_mem _ hx)
    obtain ⟨g1, g2, g3⟩ := ih (extendBounds b p) (extendBounds_nonNaN hb hp) hps'
    rw [List.foldl_cons]
    refine ⟨g1, ?_, ?_⟩
    · intro q hq
      exact g2 q (coversPoint_extend_mono hb hp hq)
    · intro x hx
      rcases List.mem_cons.mp hx with rfl | hx
      · exact g2 x (coversPoint_extend_self hb hp)
      · exact g3 x hx

theorem stopCoordCheck_nonNaN {lat lon : JSVal} (h : stopCoordCheck lat lon = true) :
    lat.isNaNb = false ∧ lon.isNaNb = false := by
  simp only [stopCoordCheck, Bool.and_eq_true, Bool.not_eq_true'] at h
  exact ⟨h.1.1.1.2, h.1.1.2⟩

theorem flowCoordCheck_nonNaN {c : FlowCoordinate} (h : flowCoordCheck (some c) = true) :
    c.lat.isNaNb = false ∧ c.lon.isNaNb = false := by
  simp only [flowCoordCheck, Bool.and_eq_true, Bool.not_eq_true'] at h
  exact ⟨h.1.2, h.2⟩

theorem collectBounds_nonNaN (routes : List ProcessedRoute) :
    ∀ p ∈ collectBounds routes, pointNonNaN p := by
  intro p hp
  rw [collectBounds, List.mem_flatMap] at hp
  obtain ⟨r, _, hp⟩ := hp
  rcases List.mem_append.mp hp with hp | hp
  · rw [stopBoundsPoints, List.mem_filterMap] at hp
    obtain ⟨stop, _, heq⟩ := hp
    simp only at heq
    split_ifs at heq with h
    · cases heq
      exact stopCoordCheck_nonNaN h
  · rw [flowBoundsPoints, List.mem_flatMap] at hp
    obtain ⟨variant, _, hp⟩ := hp
    rw [List.mem_filterMap] at hp
    obtain ⟨c, _, heq⟩ := hp
    match c, heq with
    | some coord, heq =>
      simp only [coordFilter] at heq
      split_ifs at heq with h
      · cases heq
        exact flowCoordCheck_nonNaN h

/-- C5: whenever the merged valid-point set of the active routes is nonempty,
the derived region is the one computed over the single merged list of valid
stop locations and valid flow coordinates (both sources feed the same list),
and its min/max latitude and longitude bracket every collected point. -/
theorem bounds_accumulator_brackets (routes : List ProcessedRoute)
    (hne : collectBounds routes ≠ []) :
    ∃ b, latLngBounds (collectBounds routes) = some b ∧
      (∀ p ∈ collectBounds routes, coversPoint b p) ∧
      (∀ r ∈ routes, (∀ p ∈ stopBoundsPoints r, p ∈ collectBounds routes) ∧
        (∀ p ∈ flowBoundsPoints r, p ∈ collectBounds routes)) := by
  obtain ⟨p, ps, hcons⟩ := List.exists_cons_of_ne_nil hne
  refine ⟨ps.foldl extendBounds ⟨p.1, p.1, p.2, p.2⟩, by rw [hcons]; rfl, ?_, ?_⟩
  · have hnn := collectBounds_nonNaN routes
    have hp : pointNonNaN p := hnn p (by rw [hcons]; exact List.mem_cons_self _ _)
    have hps : ∀ q ∈ ps, pointNonNaN q := fun q hq =>
      hnn q (by rw [hcons]; exact List.mem_cons_of_mem _ hq)
    have hb0 : boundsNonNaN ⟨p.1, p.1, p.2, p.2⟩ := ⟨hp.1, hp.1, hp.2, hp.2⟩
    obtain ⟨_, g2, g3⟩ := foldl_extendBounds_spec ps _ hb0 hps
    intro q hq
    rw [hcons] at hq
    rcases List.mem_cons.mp hq with rfl | hq
    · exact g2 q ⟨jsLe_refl hp.1, jsLe_refl hp.1, jsLe_refl hp.2, jsLe_refl hp.2⟩
    · exact g3 q hq
  · intro r hr
    constructor <;> intro q hq <;> rw [collectBounds, List.mem_flatMap] <;>
      exact ⟨r, hr, List.mem_append.mpr (by first | exact Or.inl hq | exact Or.inr hq)⟩

/-- Witness for C5 on the spec §8 scenario: the sample route's merged point
set is nonempty, bounds exist, and they are exactly
(40.40, 49.86)–(40.41, 49.87), the invalid (0, 0) point being dropped. -/
theorem bounds_accumulator_brackets_witness :
    collectBounds [sampleRoute] ≠ [] ∧
    (latLngBounds (collectBounds [sampleRoute])).isSome = true ∧
    latLngBounds (collectBounds [sampleRoute]) =
      some ⟨.fin (Rat.divInt 4040 100), .fin (Rat.divInt 4041 100),
            .fin (Rat.divInt 4986 100), .fin (Rat.divInt 4987 100)⟩ := by
  obtain ⟨b, hb, -, -⟩ := bounds_accumulator_brackets [sampleRoute] (by decide)
  exact ⟨by decide, by rw [hb]; rfl, by decide⟩

/-- C3 (amended): at any render, the viewport effect issues no fit command
when the dependency array is the same object as before, none when the merged
valid-point set is empty, and exactly one command with the fixed padding
`[50, 50]` when the effect runs and the valid-point set is nonempty.
Redundancy is avoided only by reference equality, not by content. -/
theorem viewport_fit_per_change (prev : Option ArrRef) (cur : ArrRef) :
    (∀ p, prev = some p → p.ref = cur.ref → fitStep prev cur = []) ∧
    (collectBounds cur.content = [] → fitStep prev cur = []) ∧
    (effectRuns prev cur = true → collectBounds cur.content ≠ [] →
      ∃ b, fitStep prev cur = [⟨b, (50, 50)⟩]) := by
  refine ⟨?_, ?_, ?_⟩
  · rintro p rfl h
    simp [fitStep, effectRuns, h]
  · intro hc
    simp only [fitStep, mapUpdaterCommand, hc]
    split <;> simp
  · intro he hne
    have hcur : 0 < cur.content.length := by
      rcases h : cur.content with _ | ⟨r, rs⟩
      · rw [h] at hne
        simp [collectBounds] at hne
      · simp
    obtain ⟨p, ps, hcons⟩ := List.exists_cons_of_ne_nil hne
    refine ⟨ps.foldl extendBounds ⟨p.1, p.1, p.2, p.2⟩, ?_⟩
    simp only [fitStep, he, if_true]
    simp only [mapUpdaterCommand, if_pos hcur, hcons]
    simp [latLngBounds]

/-- Witness for C3's amended theorem: a re-render with a fresh array object
issues exactly one fit command for the nonempty sample route set. -/
theorem viewport_fit_per_change_witness :
    effectRuns (some ⟨0, [sampleRoute]⟩) ⟨1, [sampleRoute]⟩ = true ∧
    collectBounds [sampleRoute] ≠ [] ∧
    (fitStep (some ⟨0, [sampleRoute]⟩) ⟨1, [sampleRoute]⟩).length = 1 := by
  obtain ⟨b, hb⟩ := (viewport_fit_per_change (some ⟨0, [sampleRoute]⟩)
    ⟨1, [sampleRoute]⟩).2.2 (by decide) (by decide)
  exact ⟨by decide, by decide, by rw [hb]; rfl⟩

/-- Counterexample to C3 as stated: two consecutive renders whose routes
arrays have identical content but are distinct objects — exactly what the
component produces, since `displayRoutes` is rebuilt on every parent render —
issue two fit commands, the second one redundant for an unchanged active set. -/
theorem viewport_refits_on_content_equal_rerender :
    (ArrRef.mk 0 [sampleRoute]).content = (ArrRef.mk 1 [sampleRoute]).content ∧
    (fitCommands none [⟨0, [sampleRoute]⟩, ⟨1, [sampleRoute]⟩]).length = 2 := by
  exact ⟨rfl, by decide⟩

theorem reduceOption_mapIdx_mem {α β : Type} (l : List α) (f : ℕ → α → Option β) (o : β)
    (h : o ∈ (l.mapIdx f).reduceOption) : ∃ i a, a ∈ l ∧ f i a = some o := by
  rw [List.reduceOption_mem_iff] at h
  induction l generalizing f with
  | nil => simp at h
  | cons a l ih =>
    rw [List.mapIdx_cons] at h
    rcases List.mem_cons.mp h with h | h
    · exact ⟨0, a, List.mem_cons_self _ _, h.symm⟩
    · obtain ⟨i, x, hx, hfx⟩ := ih _ h
      exact ⟨i + 1, x, List.mem_cons_of_mem _ hx, hfx⟩

theorem overlayOfVariant_none_iff {s : Bool} {r : ProcessedRoute} {idx : Nat}
    {variant : PathVariant} :
    overlayOfVariant s r idx variant = none ↔ variantCoordinates variant = [] := by
  rcases hv : variant.flowCoordinates with _ | coords
  · simp [overlayOfVariant, variantCoordinates, hv]
  · rw [overlayOfVariant, variantCoordinates, hv]
    simp only [Option.getD_some]
    by_cases h0 : coords.length = 0
    · rw [List.length_eq_zero] at h0
      simp [h0]
    · rw [if_neg h0]
      split
      · next h1 => simpa using List.length_eq_zero.mp h1
      · next h1 =>
        simp only [reduceCtorEq, false_iff]
        intro hc
        exact h1 (by rw [hc]; rfl)

theorem overlayOfVariant_some {s : Bool} {r : ProcessedRoute} {idx : Nat}
    {variant : PathVariant} {o : PathOverlay}
    (h : overlayOfVariant s r idx variant = some o) :
    o.positions = variantCoordinates variant ∧ variantCoordinates variant ≠ [] ∧
    o.color = (if s then "#3b82f6" else getColorBySpeed r.avgSpeed) ∧
    o.weight = (if s then 5 else 3) ∧
    o.opacity = (if s then Rat.divInt 9 10 else Rat.divInt 6 10) ∧
    o.popup = ⟨r.number, r.firstPoint, r.lastPoint, r.avgSpeed, r.routLength,
               r.stopCount, r.carrier⟩ := by
  rw [overlayOfVariant] at h
  split at h
  · cases h
  · next coords hv =>
    rw [variantCoordinates, hv]
    simp only [Option.getD_some]
    split at h
    · cases h
    · by_cases h1 : (coords.filterMap coordFilter).length = 0
      · rw [show coords.filterMap coordFilter = [] from List.length_eq_zero.mp h1] at h
        simp at h
      · simp only [h1, if_false] at h
        cases h
        refine ⟨rfl, ?_, rfl, rfl, rfl, rfl⟩
        intro hc
        exact h1 (by rw [hc]; rfl)

/-- C7: a path variant with a missing or empty coordinate list, or with no
valid coordinate left after filtering, produces no overlay at all (it is not
rendered as an empty path); every rendered overlay keeps nonempty geometry;
and the rendered overlays never exceed one per variant — malformed records
only reduce the count, the pipeline itself is a total function. -/
theorem overlay_empty_geometry_excluded (s : Bool) (r : ProcessedRoute) :
    (∀ idx variant, overlayOfVariant s r idx variant = none ↔
      variantCoordinates variant = []) ∧
    (∀ o ∈ renderedLines s r, o.positions ≠ []) ∧
    (renderedLines s r).length ≤ (r.routes.getD []).length := by
  refine ⟨fun idx variant => overlayOfVariant_none_iff, ?_, ?_⟩
  · intro o ho
    obtain ⟨i, v, hv, hsome⟩ := reduceOption_mapIdx_mem _ _ o ho
    obtain ⟨hpos, hne, -⟩ := overlayOfVariant_some hsome
    rw [hpos]
    exact hne
  · have h1 : (renderedLines s r).length ≤ (routeLines s r).length :=
      List.reduceOption_length_le _
    rwa [routeLines, List.length_mapIdx] at h1

/-- Witness for C7: a missing list, an empty list and an all-invalid list each
produce no overlay for the sample route, and its rendered overlay count is
bounded by its variant count. -/
theorem overlay_empty_geometry_excluded_witness :
    overlayOfVariant false sampleRoute 0 ⟨none⟩ = none ∧
    overlayOfVariant false sampleRoute 0 ⟨some []⟩ = none ∧
    overlayOfVariant false sampleRoute 0 ⟨some [some ⟨.fin 0, .fin 0⟩]⟩ = none ∧
    (renderedLines false sampleRoute).length ≤ 1 := by
  have h := overlay_empty_geometry_excluded false sampleRoute
  refine ⟨(h.1 0 ⟨none⟩).mpr rfl, (h.1 0 ⟨some []⟩).mpr rfl,
    (h.1 0 ⟨some [some ⟨.fin 0, .fin 0⟩]⟩).mpr (by decide), ?_⟩
  simpa using h.2.2

/-- C8: for every rendered stop marker, the Start flag holds iff the index is
0, the End flag iff the index is the last position, the Hub flag iff the
location carries the hub flag (roles not mutually exclusive — a single-stop
route's stop is both Start and End), and size and color follow the precedence
Hub, else Start, else End, else Regular. -/
theorem stop_role_resolution (route : ProcessedRoute) (idx : Nat) (stop : RouteStop)
    (m : StopMarker) (h : markerOfStop route idx stop = some m) :
    m.popup.isFirst = decide (idx = 0) ∧
    m.popup.isLast = decide ((idx : ℤ) = ((route.stops.getD []).length : ℤ) - 1) ∧
    m.popup.isHub = (stop.stop.map StopLocation.isTransportHub).getD false ∧
    m.bgColor = (if m.popup.isHub then "#ef4444" else if m.popup.isFirst then "#10b981"
                 else if m.popup.isLast then "#f59e0b" else "#3b82f6") ∧
    m.markerSize = (if m.popup.isHub then 24
                    else if m.popup.isFirst || m.popup.isLast then 20 else 16) ∧
    m.pulse = (m.popup.isHub || m.popup.isFirst || m.popup.isLast) ∧
    ((route.stops.getD []).length = 1 → idx = 0 →
      m.popup.isFirst = true ∧ m.popup.isLast = true) := by
  rw [markerOfStop] at h
  split at h
  · cases h
  · cases h
    refine ⟨rfl, rfl, rfl, rfl, rfl, rfl, ?_⟩
    rintro hlen rfl
    rw [hlen]
    exact ⟨by simp, by simp⟩

/-- Witness for C8 on the spec's example: stops [A, B, C] with B flagged hub
yield role set {Start} for A, {Hub} for B (red, size 24), {End} for C. -/
theorem stop_role_resolution_witness :
    markerOfStop routeABC 1 stopB = some markerB ∧
    markerB.popup.isHub = true ∧
    markerB.popup.isFirst = false ∧
    markerB.popup.isLast = false ∧
    markerB.bgColor = "#ef4444" ∧
    markerB.markerSize = 24 ∧
    ((markerOfStop routeABC 0
        (⟨"sA", some ⟨"A", some (.fin 40), some (.fin 49), false⟩, .fin 0⟩ : RouteStop)).map
      (fun m => (m.popup.isFirst, m.popup.isLast, m.popup.isHub)) =
      some (true, false, false)) ∧
    ((markerOfStop routeABC 2
        (⟨"sC", some ⟨"C", some (.fin 42), some (.fin 51), false⟩, .fin 6⟩ : RouteStop)).map
      (fun m => (m.popup.isFirst, m.popup.isLast, m.popup.isHub)) =
      some (false, true, false)) := by
  have h : markerOfStop routeABC 1 stopB = some markerB := by decide
  have hr := stop_role_resolution routeABC 1 stopB markerB h
  refine ⟨h, ?_, ?_, ?_, ?_, ?_, by decide, by decide⟩
  · rw [hr.2.2.1]; decide
  · rw [hr.1]; decide
  · rw [hr.2.1]; decide
  · rw [hr.2.2.2.1]; decide
  · rw [hr.2.2.2.2.1]; decide

/-- C9: the Overlay Builder is a pure function of the route list and the
selection — two runs on equal inputs yield equal descriptor lists (geometry,
colors, popup text and ordering included) — and every rendered path overlay
carries the fixed highlight color, heavier stroke and higher opacity when a
route is selected, otherwise the Performance Classifier's tier color with the
contextual stroke and opacity, plus the route's popup payload. -/
theorem overlay_builder_deterministic (routes₁ routes₂ : List ProcessedRoute)
    (sel₁ sel₂ : Option ProcessedRoute) (hr : routes₁ = routes₂) (hs : sel₁ = sel₂) :
    buildOverlays routes₁ sel₁ = buildOverlays routes₂ sel₂ ∧
    ∀ r ∈ displayRoutes routes₁ sel₁, ∀ o ∈ renderedLines sel₁.isSome r,
      o.color = (if sel₁.isSome then "#3b82f6" else getColorBySpeed r.avgSpeed) ∧
      o.weight = (if sel₁.isSome then 5 else 3) ∧
      o.opacity = (if sel₁.isSome then Rat.divInt 9 10 else Rat.divInt 6 10) ∧
      o.popup = ⟨r.number, r.firstPoint, r.lastPoint, r.avgSpeed, r.routLength,
                 r.stopCount, r.carrier⟩ := by
  subst hr
  subst hs
  refine ⟨rfl, ?_⟩
  intro r _ o ho
  obtain ⟨i, v, _, hsome⟩ := reduceOption_mapIdx_mem _ _ o ho
  exact (overlayOfVariant_some hsome).2.2

/-- Witness for C9: two identical runs agree on the sample route, and its
descriptor carries the tier color and the route's popup payload. -/
theorem overlay_builder_deterministic_witness :
    buildOverlays [sampleRoute] none = buildOverlays [sampleRoute] none ∧
    sampleOverlay ∈ renderedLines (none : Option ProcessedRoute).isSome sampleRoute ∧
    sampleOverlay.color = getColorBySpeed sampleRoute.avgSpeed ∧
    sampleOverlay.popup = ⟨"7", "Koroglu", "28 May", .fin 40, .fin 12, 1, "BakuBus"⟩ := by
  have h := overlay_builder_deterministic [sampleRoute] [sampleRoute] none none rfl rfl
  have hm : sampleRoute ∈ displayRoutes [sampleRoute] none := by decide
  have ho : sampleOverlay ∈ renderedLines (none : Option ProcessedRoute).isSome sampleRoute := by
    decide
  have h2 := h.2 sampleRoute hm sampleOverlay ho
  exact ⟨h.1, ho, by simpa using h2.1, by simpa using h2.2.2.2⟩
